import Mathlib

/-!
Shallow embedding of the 3D-printer vision-monitor service
(`src/monitor/app.py`) for checking the natural-language specification.

Modelling conventions:
* Frames are abstracted to identifiers (`Nat`); the pixel contents never
  influence the control flow that the claims are about — the motion result
  for a frame pair is an input to each tick (`TickInput.motion`), exactly
  the boolean `MotionDetector.detect` returns.
* Timestamps (`datetime.now()` values) are `Nat` seconds; one `now` value
  is used per monitor tick.
* Confidences are `ℚ` (the code only compares and maximises them, so exact
  rationals mirror the Python floats on every input used here).
* External effects with data-dependent outcomes (ML API response, Docker
  container start/stop success, health-probe result) are inputs of the
  functions that the Python code obtains them in.
* The `State` record of `app.py` becomes the structure `MState`; field
  names are the Python attribute names in camelCase.
-/

namespace PrintMonitor

/-- Frames are abstracted to identifiers; the claims never depend on pixel data. -/
abbrev Frame := Nat

/-- The configuration values (`Config` in `app.py`) that the monitoring
core reads: `DETECTION_THRESHOLD`, `IDLE_TIMEOUT`, `STANDBY_MODE_ENABLED`,
`STANDBY_AUTO_TIMEOUT`. -/
structure Config where
  detectionThreshold : ℚ
  idleTimeout : Nat
  standbyEnabled : Bool
  standbyAutoTimeout : Nat
deriving Repr

/-- The shared status record: class `State` in `app.py` (lines 80-101).
`lastFrameBase64` is omitted — it always mirrors `lastFrame` through an
opaque JPEG/base64 encoding that no claim depends on. -/
structure MState where
  currentStatus : String
  failureDetected : Bool
  detectionConfidence : ℚ
  errorMessage : Option String
  mqttConnected : Bool
  mlApiHealthy : Bool
  streamConnected : Bool
  totalChecks : Nat
  failedChecks : Nat
  lastFrame : Option Frame
  lastCheckTime : Option Nat
  lastMotionTime : Option Nat
  standbyMode : Bool
  lastActivityTime : Option Nat
  mlContainerRunning : Bool
deriving DecidableEq, Repr

/-- `State.__init__` (`app.py` lines 80-101): the process-start state.
`last_activity_time` is initialised to `datetime.now()`, here `t0`. -/
def initialState (t0 : Nat) : MState :=
  { currentStatus := "starting"
    failureDetected := false
    detectionConfidence := 0
    errorMessage := none
    mqttConnected := false
    mlApiHealthy := false
    streamConnected := false
    totalChecks := 0
    failedChecks := 0
    lastFrame := none
    lastCheckTime := none
    lastMotionTime := none
    standbyMode := false
    lastActivityTime := some t0
    mlContainerRunning := true }

/-! ### DockerHandler (PowerController), `app.py` lines 132-249

`enabled` is `DockerHandler.enabled`: `Config.STANDBY_MODE_ENABLED`
possibly degraded to `false` when Docker initialisation fails; in the code
`self.container` is present exactly when `enabled` is true, so the
`not self.enabled or not self.container` guards collapse to `!enabled`.
`stopOk` / `startOk` are the success of the external Docker stop/start
call (`container.stop` raising, or the 30-poll loop timing out, give
`false`). -/

/-- `DockerHandler.stop_container` (lines 166-180): on success marks
`ml_container_running=False, ml_api_healthy=False`; on failure the state
update is never reached. -/
def stop_container (enabled stopOk : Bool) (s : MState) : Bool × MState :=
  if !enabled then (false, s)
  else if stopOk then
    (true, { s with mlContainerRunning := false, mlApiHealthy := false })
  else (false, s)

/-- `DockerHandler.start_container` (lines 182-207): on success marks
`ml_container_running=True`; on poll timeout or exception nothing is
written. -/
def start_container (enabled startOk : Bool) (s : MState) : Bool × MState :=
  if !enabled then (false, s)
  else if startOk then (true, { s with mlContainerRunning := true })
  else (false, s)

/-- `DockerHandler.enter_standby` (lines 209-226). -/
def enter_standby (enabled stopOk : Bool) (s : MState) : Bool × MState :=
  if !enabled then (false, s)
  else if s.standbyMode then (true, s)
  else
    let r := stop_container enabled stopOk s
    if r.1 then (true, { r.2 with standbyMode := true, currentStatus := "standby" })
    else (false, r.2)

/-- `DockerHandler.exit_standby` (lines 228-249). -/
def exit_standby (enabled startOk : Bool) (now : Nat) (s : MState) : Bool × MState :=
  if !enabled then (false, s)
  else if !s.standbyMode then (true, s)
  else
    let r := start_container enabled startOk s
    if r.1 then
      (true, { r.2 with
                 standbyMode := false
                 currentStatus := "monitoring"
                 lastActivityTime := some now })
    else (false, r.2)

/-! ### Detection parsing, `app.py` lines 625-638 -/

/-- One entry of the ML API's `detections` list. The code accepts an entry
only if `isinstance(detection, list) and len(detection) >= 3`; a
well-formed `[name, confidence, [x, y, w, h]]` tuple is `valid`, anything
the guard rejects is `malformed`. -/
inductive DetEntry where
  | valid (label : String) (confidence : ℚ) (bounds : List ℚ)
  | malformed
deriving DecidableEq, Repr

/-- The accumulator loop of `monitor_loop` lines 628-638: folds
`(max_confidence, failure_detected)` over the detections, starting from
`(0.0, False)`; a valid entry updates the running max with its confidence
and sets the flag when `confidence >= DETECTION_THRESHOLD`. -/
def scanAux (thr : ℚ) (acc : ℚ × Bool) : List DetEntry → ℚ × Bool
  | [] => acc
  | DetEntry.valid _ c _ :: ds =>
      scanAux thr (max acc.1 c, acc.2 || decide (thr ≤ c)) ds
  | DetEntry.malformed :: ds => scanAux thr acc ds

/-- `max_confidence` and `failure_detected` computed from an ML response
(`app.py` lines 628-638; the `if detections:` guard is redundant since the
loop over `[]` leaves the accumulator at `(0.0, False)`). -/
def scanDetections (thr : ℚ) (ds : List DetEntry) : ℚ × Bool :=
  scanAux thr (0, false) ds

/-! ### One iteration of `monitor_loop`, `app.py` lines 548-671

The loop body is split into the branch functions below exactly along the
code's control flow; `monitor_tick` glues them together and also records
which external calls the iteration makes (frame acquisition, motion
evaluation, ML detection call, MQTT failure publish). -/

/-- External calls a single tick performs, in order. -/
inductive Event where
  | getFrameCall
  | motionEval
  | detectCall
  | publishFailure (confidence : ℚ) (detections : List DetEntry)
deriving DecidableEq, Repr

/-- Per-tick inputs: what the external world returns to this iteration.
`frameResult` is what `stream_handler.get_frame()` returns; `motion` is
what `motion_detector.detect(frame)` returns; `healthUpdate` is the
health-probe side effect inside `analyze_frame` (`none` when the cached
value is used and `ml_api_healthy` is not rewritten); `mlResult` is the
parsed ML response (`none` on timeout/error); `startOk` / `stopOk` are the
Docker outcomes for any standby transition attempted this tick. -/
structure TickInput where
  frameResult : Option Frame
  now : Nat
  motion : Bool
  healthUpdate : Option Bool
  mlResult : Option (List DetEntry)
  startOk : Bool
  stopOk : Bool
deriving Repr

/-- Lines 553-558: no frame available. -/
def noFrameUpdate (s : MState) : MState :=
  { s with currentStatus := "error"
           errorMessage := some "Cannot capture frame from stream" }

/-- Lines 562-576: record the (timestamp-overlaid) frame and the check time. -/
def frameUpdate (f : Frame) (now : Nat) (s : MState) : MState :=
  { s with lastFrame := some f, lastCheckTime := some now }

/-- Lines 578-585: motion detection; on motion record `last_motion_time`
and, if currently in standby, attempt `exit_standby`. -/
def motionStep (enabled startOk : Bool) (now : Nat) (motion : Bool) (s : MState) : MState :=
  if motion then
    let s1 := { s with lastMotionTime := some now }
    if s1.standbyMode then (exit_standby enabled startOk now s1).2 else s1
  else s

/-- Lines 588-589: active iff motion was seen less than `IDLE_TIMEOUT`
seconds ago (never-seen motion counts as inactive). -/
def isActive (cfg : Config) (now : Nat) (s : MState) : Bool :=
  match s.lastMotionTime with
  | none => false
  | some t => now - t < cfg.idleTimeout

/-- Line 593: the `state.update(current_status='idle', error_message=None)`
write at the top of the idle branch. -/
def idleState (s : MState) : MState :=
  { s with currentStatus := "idle", errorMessage := none }

/-- Lines 591-604: the idle branch — mark `idle`, clear the error, and
auto-enter standby when the feature is on, the auto timeout is positive,
standby is not already active and the last activity is old enough. -/
def idleBranch (cfg : Config) (enabled stopOk : Bool) (now : Nat) (s : MState) : MState :=
  if cfg.standbyEnabled && decide (0 < cfg.standbyAutoTimeout) && !(idleState s).standbyMode then
    match (idleState s).lastActivityTime with
    | some ta =>
        if cfg.standbyAutoTimeout < now - ta then (enter_standby enabled stopOk (idleState s)).2
        else idleState s
    | none => idleState s
  else idleState s

/-- Lines 612-668: the ML analysis branch. `analyze_frame` first runs the
(cached) health probe, whose only state effect is a possible rewrite of
`ml_api_healthy` (`healthUpdate`); then a `none` analysis result is the
error branch (lines 615-621) and a response is scanned and classified
(lines 622-668), publishing a failure event when the threshold is
crossed. -/
def analyzeBranch (cfg : Config) (now : Nat) (healthUpdate : Option Bool)
    (mlResult : Option (List DetEntry)) (s : MState) : MState × List Event :=
  let s0 := match healthUpdate with
            | none => s
            | some b => { s with mlApiHealthy := b }
  match mlResult with
  | none =>
      ({ s0 with currentStatus := "error"
                 errorMessage := some "ML API analysis failed"
                 failedChecks := s0.failedChecks + 1 }, [])
  | some ds =>
      let scan := scanDetections cfg.detectionThreshold ds
      let s1 := { s0 with totalChecks := s0.totalChecks + 1
                          detectionConfidence := scan.1
                          failureDetected := scan.2 }
      if scan.2 then
        ({ s1 with currentStatus := "failure"
                   errorMessage := none
                   lastActivityTime := some now },
         [Event.publishFailure scan.1 ds])
      else
        ({ s1 with currentStatus := "ok"
                   errorMessage := none
                   lastActivityTime := some now }, [])

/-- One iteration of the `monitor_loop` body (`app.py` lines 548-671),
following the code's order exactly: `get_frame` is called first and
unconditionally; a `none` frame is the no-frame error branch; otherwise
the frame is recorded, motion is evaluated (possibly exiting standby),
then either the idle branch (inactive), the standby-wait branch (still in
standby: no detection), or the ML analysis branch runs. Returns the new
shared status and the list of external calls made. -/
def monitor_tick (cfg : Config) (enabled : Bool) (inp : TickInput) (s : MState) :
    MState × List Event :=
  match inp.frameResult with
  | none => (noFrameUpdate s, [Event.getFrameCall])
  | some f =>
      let s1 := frameUpdate f inp.now s
      let s2 := motionStep enabled inp.startOk inp.now inp.motion s1
      if !isActive cfg inp.now s2 then
        (idleBranch cfg enabled inp.stopOk inp.now s2,
         [Event.getFrameCall, Event.motionEval])
      else if s2.standbyMode then
        (s2, [Event.getFrameCall, Event.motionEval])
      else
        let r := analyzeBranch cfg inp.now inp.healthUpdate inp.mlResult s2
        (r.1, [Event.getFrameCall, Event.motionEval, Event.detectCall] ++ r.2)

/-! ### RTSPStreamHandler (FrameSource), `app.py` lines 349-439

Only the single-slot buffer contract is needed here. `running` stands for
"the background reader thread is running and alive"; the shared-status
connectivity flag updates inside `connect` do not touch the buffer and are
not modelled. `connectOk` is whether `cv2.VideoCapture` opens. -/

structure StreamState where
  running : Bool
  latestFrame : Option Frame
  lastConnectionAttempt : Nat
deriving DecidableEq, Repr

/-- `RTSPStreamHandler.connection_retry_delay` (line 357). -/
def connectionRetryDelay : Nat := 60

/-- `RTSPStreamHandler.connect` (lines 360-398): rate-limited to one
attempt per retry window; on success the reader thread is started. The
buffer is never written by `connect`. -/
def stream_connect (now : Nat) (connectOk : Bool) (st : StreamState) : Bool × StreamState :=
  if now - st.lastConnectionAttempt < connectionRetryDelay then (false, st)
  else
    let st1 := { st with lastConnectionAttempt := now }
    if connectOk then (true, { st1 with running := true })
    else (false, st1)

/-- The background reader storing a freshly decoded frame
(`_reader_loop`, lines 400-416): an "intervening capture". -/
def reader_store (f : Frame) (st : StreamState) : StreamState :=
  { st with latestFrame := some f }

/-- `RTSPStreamHandler.get_frame` (lines 418-427): if the reader is not
running, try `connect` and return `none` when that fails; otherwise (also
directly after a successful reconnect) read the single-slot buffer and
clear it — each frame is consumed at most once. -/
def get_frame (now : Nat) (connectOk : Bool) (st : StreamState) :
    Option Frame × StreamState :=
  if st.running then (st.latestFrame, { st with latestFrame := none })
  else
    let r := stream_connect now connectOk st
    if r.1 then (r.2.latestFrame, { r.2 with latestFrame := none })
    else (none, r.2)

/-! ### The mode vocabulary

The spec's six states are {starting, idle, monitoring/ok, failure, error,
standby}; the single spec state "monitoring/ok" is written by the code as
either the string `'monitoring'` (standby exit) or `'ok'` (clean analysis
cycle), so the string vocabulary has seven members covering the six spec
states. -/
def validModes : List String :=
  ["starting", "idle", "monitoring", "ok", "failure", "error", "standby"]

/-! ### Concrete fixtures

Sample configurations, inputs and states used by the concrete runs below
(`cfgDefault` is the default configuration of `Config` in `app.py`:
`DETECTION_THRESHOLD=0.6`, `IDLE_TIMEOUT=60`, standby enabled with a 300s
auto timeout). -/

def cfgDefault : Config :=
  { detectionThreshold := 6/10, idleTimeout := 60,
    standbyEnabled := true, standbyAutoTimeout := 300 }

/-- A well-formed detection tuple with confidence 0.61. -/
def det061 : DetEntry := DetEntry.valid "spaghetti" (61/100) [0, 0, 1, 1]

/-- Tick input: a frame arrives, motion is seen, the ML API answers with the
single 0.61-confidence detection. -/
def inpDetect : TickInput :=
  { frameResult := some 1, now := 10, motion := true, healthUpdate := some true,
    mlResult := some [det061], startOk := true, stopOk := true }

/-- The process-start state. -/
def s0 : MState := initialState 0

/-- State after one detection tick on `s0`: a failure cycle. -/
def s1 : MState := (monitor_tick cfgDefault true inpDetect s0).1

/-- Tick input: `get_frame()` returns nothing. -/
def inpNoFrame : TickInput :=
  { frameResult := none, now := 20, motion := false, healthUpdate := none,
    mlResult := none, startOk := true, stopOk := true }

/-- State after a no-frame tick on the failure state `s1`. -/
def s2err : MState := (monitor_tick cfgDefault true inpNoFrame s1).1

def sNF1 : MState := (monitor_tick cfgDefault true inpNoFrame s0).1
def sNF2 : MState := (monitor_tick cfgDefault true inpNoFrame sNF1).1
def sNF3 : MState := (monitor_tick cfgDefault true inpNoFrame sNF2).1

/-- A standby state, produced by `enter_standby` from the start state. -/
def sStandby : MState := (enter_standby true true s0).2

/-- Tick input: motion while in standby, container start succeeds, ML API
replies with an empty detection list. -/
def inpStandbyMotion : TickInput :=
  { frameResult := some 2, now := 30, motion := true, healthUpdate := none,
    mlResult := some [], startOk := true, stopOk := true }

/-- Tick input: motion while in standby but the container start fails. -/
def inpMotionStartFail : TickInput :=
  { frameResult := some 3, now := 40, motion := true, healthUpdate := none,
    mlResult := none, startOk := false, stopOk := true }

/-- Tick input: a frame but no motion. -/
def inpIdleFrame : TickInput :=
  { frameResult := some 4, now := 50, motion := false, healthUpdate := none,
    mlResult := none, startOk := true, stopOk := true }

/-- Tick input: motion, container start succeeds, empty detection list. -/
def inpMotionOk : TickInput :=
  { frameResult := some 5, now := 60, motion := true, healthUpdate := none,
    mlResult := some [], startOk := true, stopOk := true }

/-- A state with recent motion (active printer), not in standby. -/
def sActive : MState := { s0 with lastMotionTime := some 5 }

/-- Tick input: a frame, no new motion, ML analysis fails. -/
def inpMlFail : TickInput :=
  { frameResult := some 6, now := 7, motion := false, healthUpdate := none,
    mlResult := none, startOk := true, stopOk := true }

/-- A stream handler state whose reader is running and whose single-slot
buffer holds one frame. -/
def stBuf : StreamState :=
  { running := true, latestFrame := some 7, lastConnectionAttempt := 0 }

/-! ## Helper lemmas -/

theorem enter_standby_status_mem (e ok : Bool) (s : MState)
    (h : s.currentStatus ∈ validModes) :
    ((enter_standby e ok s).2).currentStatus ∈ validModes := by
  cases e <;> cases ok <;> cases hs : s.standbyMode <;>
    simp_all [enter_standby, stop_container, validModes]

theorem exit_standby_status_mem (e ok : Bool) (now : Nat) (s : MState)
    (h : s.currentStatus ∈ validModes) :
    ((exit_standby e ok now s).2).currentStatus ∈ validModes := by
  cases e <;> cases ok <;> cases hs : s.standbyMode <;>
    simp_all [exit_standby, start_container, validModes]

theorem motionStep_status_mem (e ok : Bool) (now : Nat) (m : Bool) (s : MState)
    (h : s.currentStatus ∈ validModes) :
    (motionStep e ok now m s).currentStatus ∈ validModes := by
  cases m
  · simpa [motionStep] using h
  · simp only [motionStep, if_true]
    split
    · exact exit_standby_status_mem _ _ _ _ (by simpa using h)
    · simpa using h

theorem idleBranch_status_mem (cfg : Config) (e ok : Bool) (now : Nat) (s : MState) :
    (idleBranch cfg e ok now s).currentStatus ∈ validModes := by
  have hidle : (idleState s).currentStatus ∈ validModes := by simp [idleState, validModes]
  unfold idleBranch
  split
  · split
    · split
      · exact enter_standby_status_mem _ _ _ hidle
      · exact hidle
    · exact hidle
  · exact hidle

theorem analyzeBranch_status_mem (cfg : Config) (now : Nat) (hu : Option Bool)
    (ml : Option (List DetEntry)) (s : MState) :
    ((analyzeBranch cfg now hu ml s).1).currentStatus ∈ validModes := by
  cases ml with
  | none => cases hu <;> simp [analyzeBranch, validModes]
  | some ds =>
      cases hu <;> cases hscan : (scanDetections cfg.detectionThreshold ds).2 <;>
        simp [analyzeBranch, hscan, validModes]

theorem analyzeBranch_standbyMode (cfg : Config) (now : Nat) (hu : Option Bool)
    (ml : Option (List DetEntry)) (s : MState) :
    ((analyzeBranch cfg now hu ml s).1).standbyMode = s.standbyMode := by
  cases ml with
  | none => cases hu <;> simp [analyzeBranch]
  | some ds =>
      cases hu <;> cases hscan : (scanDetections cfg.detectionThreshold ds).2 <;>
        simp [analyzeBranch, hscan]

theorem idleBranch_standbyMode_after_activity (cfg : Config) (e ok : Bool) (now : Nat)
    (s : MState) (hsb : s.standbyMode = false) (hla : s.lastActivityTime = some now) :
    (idleBranch cfg e ok now s).standbyMode = false := by
  unfold idleBranch
  split
  · simp [idleState, hla, Nat.sub_self, hsb]
  · simp [idleState, hsb]

theorem scanAux_fst_le (thr : ℚ) : ∀ (ds : List DetEntry) (acc : ℚ × Bool),
    acc.1 ≤ (scanAux thr acc ds).1 := by
  intro ds
  induction ds with
  | nil => intro acc; exact le_refl _
  | cons d ds ih =>
    intro acc
    cases d with
    | valid l c b =>
        exact le_trans (le_max_left _ _) (ih (max acc.1 c, acc.2 || decide (thr ≤ c)))
    | malformed => exact ih acc

theorem scanAux_mem_le (thr : ℚ) : ∀ (ds : List DetEntry) (acc : ℚ × Bool)
    (l : String) (c : ℚ) (b : List ℚ),
    DetEntry.valid l c b ∈ ds → c ≤ (scanAux thr acc ds).1 := by
  intro ds
  induction ds with
  | nil => intro acc l c b h; exact absurd h (List.not_mem_nil _)
  | cons d ds ih =>
    intro acc l c b h
    cases d with
    | valid l2 c2 b2 =>
        rcases List.mem_cons.mp h with h1 | h1
        · obtain ⟨rfl, rfl, rfl⟩ := DetEntry.valid.inj h1
          exact le_trans (le_max_right _ _) (scanAux_fst_le thr ds _)
        · exact ih _ l c b h1
    | malformed =>
        rcases List.mem_cons.mp h with h1 | h1
        · exact absurd h1 (by simp)
        · exact ih _ l c b h1

theorem scanAux_fst_attained (thr : ℚ) : ∀ (ds : List DetEntry) (acc : ℚ × Bool),
    (scanAux thr acc ds).1 = acc.1 ∨
    ∃ l c b, DetEntry.valid l c b ∈ ds ∧ (scanAux thr acc ds).1 = c := by
  intro ds
  induction ds with
  | nil => intro acc; exact Or.inl rfl
  | cons d ds ih =>
    intro acc
    cases d with
    | valid l2 c2 b2 =>
        simp only [scanAux]
        rcases ih (max acc.1 c2, acc.2 || decide (thr ≤ c2)) with h | ⟨l, c, b, hm, he⟩
        · rcases max_choice acc.1 c2 with hmx | hmx
          · exact Or.inl (by rw [h]; exact hmx)
          · exact Or.inr ⟨l2, c2, b2, List.mem_cons_self _ _, by rw [h]; exact hmx⟩
        · exact Or.inr ⟨l, c, b, List.mem_cons_of_mem _ hm, he⟩
    | malformed =>
        simp only [scanAux]
        rcases ih acc with h | ⟨l, c, b, hm, he⟩
        · exact Or.inl h
        · exact Or.inr ⟨l, c, b, List.mem_cons_of_mem _ hm, he⟩

theorem scanAux_snd_iff (thr : ℚ) : ∀ (ds : List DetEntry) (acc : ℚ × Bool),
    ((scanAux thr acc ds).2 = true ↔
      (acc.2 = true ∨ ∃ l c b, DetEntry.valid l c b ∈ ds ∧ thr ≤ c)) := by
  intro ds
  induction ds with
  | nil => intro acc; simp [scanAux]
  | cons d ds ih =>
    intro acc
    cases d with
    | valid l2 c2 b2 =>
        simp only [scanAux]
        rw [ih]
        simp only [Bool.or_eq_true, decide_eq_true_eq, List.mem_cons]
        constructor
        · rintro ((h | h) | ⟨l, c, b, hm, hc⟩)
          · exact Or.inl h
          · exact Or.inr ⟨l2, c2, b2, Or.inl rfl, h⟩
          · exact Or.inr ⟨l, c, b, Or.inr hm, hc⟩
        · rintro (h | ⟨l, c, b, (heq | hm), hc⟩)
          · exact Or.inl (Or.inl h)
          · obtain ⟨rfl, rfl, rfl⟩ := DetEntry.valid.inj heq
            exact Or.inl (Or.inr hc)
          · exact Or.inr ⟨l, c, b, hm, hc⟩
    | malformed =>
        simp only [scanAux]
        rw [ih]
        constructor
        · rintro (h | ⟨l, c, b, hm, hc⟩)
          · exact Or.inl h
          · exact Or.inr ⟨l, c, b, List.mem_cons_of_mem _ hm, hc⟩
        · rintro (h | ⟨l, c, b, hm, hc⟩)
          · exact Or.inl h
          · rcases List.mem_cons.mp hm with heq | hm2
            · exact absurd heq (by simp)
            · exact Or.inr ⟨l, c, b, hm2, hc⟩

/-! ## Claim C1 — `failureDetected` mirrors `mode == failure` -/

/-- C1, counterexample: the mirror invariant fails on the code. Starting
from the process-start state, a detection tick with confidence 0.61
(threshold 0.6) yields `failure_detected = True` and `current_status =
'failure'`; the following no-frame tick overwrites `current_status` to
`'error'` but leaves `failure_detected = True`, so after that mutation
`failure_detected ≠ (current_status = 'failure')`. -/
theorem failure_mirror_counterexample :
    s1.failureDetected = true ∧ s1.currentStatus = "failure" ∧
    s2err.currentStatus = "error" ∧ s2err.failureDetected = true ∧
    ¬ ((s2err.failureDetected = true) ↔ s2err.currentStatus = "failure") := by
  have h1 : s1.failureDetected = true ∧ s1.currentStatus = "failure" := by
    constructor <;> norm_num [s1, monitor_tick, inpDetect, cfgDefault, s0, initialState,
      frameUpdate, motionStep, isActive, analyzeBranch, idleBranch, idleState,
      scanDetections, scanAux, det061]
  have h2 : s2err.currentStatus = "error" := by
    norm_num [s2err, monitor_tick, inpNoFrame, noFrameUpdate]
  have h3 : s2err.failureDetected = true := by
    have hh : s2err.failureDetected = s1.failureDetected := by
      norm_num [s2err, monitor_tick, inpNoFrame, noFrameUpdate]
    rw [hh, h1.1]
  refine ⟨h1.1, h1.2, h2, h3, ?_⟩
  intro hiff
  have hfail := hiff.mp h3
  rw [h2] at hfail
  exact absurd hfail (by simp)

/-- C1, amended: after the mutations of a successful-analysis cycle (both
the failure and the ok branch) the post-state satisfies
`failure_detected = (current_status = 'failure')`; the no-frame error
branch (and likewise the ML-error branch) sets `current_status='error'`
while leaving `failure_detected` unchanged, so the mirror equality need
not hold after those mutations. -/
theorem failure_mirror_after_analysis :
    (∀ (cfg : Config) (enabled : Bool) (inp : TickInput) (s : MState) (f : Frame)
       (ds : List DetEntry),
      s.standbyMode = false → inp.motion = true → inp.frameResult = some f →
      inp.mlResult = some ds → 0 < cfg.idleTimeout →
      ((monitor_tick cfg enabled inp s).1.failureDetected = true ↔
        (monitor_tick cfg enabled inp s).1.currentStatus = "failure")) ∧
    (∀ (cfg : Config) (enabled : Bool) (inp : TickInput) (s : MState),
      inp.frameResult = none →
      ((monitor_tick cfg enabled inp s).1.currentStatus = "error" ∧
       (monitor_tick cfg enabled inp s).1.failureDetected = s.failureDetected)) := by
  constructor
  · intro cfg enabled inp s f ds hsb hm hf hml hto
    rcases hu : inp.healthUpdate with _ | b <;>
      cases hscan : (scanDetections cfg.detectionThreshold ds).2 <;>
      simp [monitor_tick, hf, hm, hml, hu, frameUpdate, motionStep, isActive,
        analyzeBranch, hsb, hscan, hto, Nat.sub_self]
  · intro cfg enabled inp s hf
    simp [monitor_tick, hf, noFrameUpdate]

/-- C1, witness: the amended mirror property evaluated on the concrete
detection tick. -/
theorem failure_mirror_after_analysis_witness :
    ((monitor_tick cfgDefault true inpDetect s0).1.failureDetected = true ↔
      (monitor_tick cfgDefault true inpDetect s0).1.currentStatus = "failure") :=
  failure_mirror_after_analysis.1 cfgDefault true inpDetect s0 1 [det061]
    rfl rfl rfl rfl (by decide)

/-! ## Claim C2 — three consecutive no-frame ticks -/

/-- C2, counterexample: three consecutive no-frame ticks from the start
state set `mode = error` each time but leave `failed_checks` at 0 — the
no-frame branch (`app.py` lines 553-560) does not increment
`failed_checks`, so the claimed increment by 3 is false. -/
theorem no_frame_failed_checks_counterexample :
    sNF1.currentStatus = "error" ∧ sNF2.currentStatus = "error" ∧
    sNF3.currentStatus = "error" ∧ sNF3.totalChecks = s0.totalChecks ∧
    sNF3.failedChecks = s0.failedChecks ∧
    ¬ (sNF3.failedChecks = s0.failedChecks + 3) := by decide

/-- C2, amended: if `GetFrame()` returns none on 3 consecutive monitor
ticks, each of those ticks sets `mode` to error, and both `failedChecks`
and `totalChecks` are unchanged over the 3 ticks (the no-frame branch
increments neither counter). -/
theorem no_frame_ticks (cfg : Config) (enabled : Bool) (i1 i2 i3 : TickInput) (s : MState)
    (h1 : i1.frameResult = none) (h2 : i2.frameResult = none) (h3 : i3.frameResult = none) :
    ((monitor_tick cfg enabled i1 s).1.currentStatus = "error" ∧
     (monitor_tick cfg enabled i2 (monitor_tick cfg enabled i1 s).1).1.currentStatus = "error" ∧
     (monitor_tick cfg enabled i3
       (monitor_tick cfg enabled i2 (monitor_tick cfg enabled i1 s).1).1).1.currentStatus
       = "error" ∧
     (monitor_tick cfg enabled i3
       (monitor_tick cfg enabled i2 (monitor_tick cfg enabled i1 s).1).1).1.failedChecks
       = s.failedChecks ∧
     (monitor_tick cfg enabled i3
       (monitor_tick cfg enabled i2 (monitor_tick cfg enabled i1 s).1).1).1.totalChecks
       = s.totalChecks) := by
  simp [monitor_tick, h1, h2, h3, noFrameUpdate]

/-- C2, witness: the amended no-frame property evaluated on three concrete
no-frame ticks from the start state. -/
theorem no_frame_ticks_witness :
    ((monitor_tick cfgDefault true inpNoFrame s0).1.currentStatus = "error" ∧
     (monitor_tick cfgDefault true inpNoFrame
       (monitor_tick cfgDefault true inpNoFrame s0).1).1.currentStatus = "error" ∧
     (monitor_tick cfgDefault true inpNoFrame
       (monitor_tick cfgDefault true inpNoFrame
         (monitor_tick cfgDefault true inpNoFrame s0).1).1).1.currentStatus = "error" ∧
     (monitor_tick cfgDefault true inpNoFrame
       (monitor_tick cfgDefault true inpNoFrame
         (monitor_tick cfgDefault true inpNoFrame s0).1).1).1.failedChecks
       = s0.failedChecks ∧
     (monitor_tick cfgDefault true inpNoFrame
       (monitor_tick cfgDefault true inpNoFrame
         (monitor_tick cfgDefault true inpNoFrame s0).1).1).1.totalChecks
       = s0.totalChecks) :=
  no_frame_ticks cfgDefault true inpNoFrame inpNoFrame inpNoFrame s0 rfl rfl rfl

/-! ## Claim C3 — standby ticks and external calls -/

/-- C3, counterexample: a tick that starts with `standby_mode = True` still
calls `get_frame` (the loop acquires a frame before any standby check,
`app.py` line 551) and runs the motion evaluator; moreover, when motion
exits standby during the tick, the detection client is called in the same
tick — all three calls the claim forbids occur. -/
theorem standby_tick_calls_counterexample :
    sStandby.standbyMode = true ∧
    Event.getFrameCall ∈ (monitor_tick cfgDefault true inpStandbyMotion sStandby).2 ∧
    Event.motionEval ∈ (monitor_tick cfgDefault true inpStandbyMotion sStandby).2 ∧
    Event.detectCall ∈ (monitor_tick cfgDefault true inpStandbyMotion sStandby).2 := by
  decide

/-- C3, amended: a monitor tick that starts with `standbyMode` true still
calls `FrameSource.GetFrame` and, when a frame arrives, runs the motion
evaluator; provided motion does not exit standby during the tick (no
motion, standby handler disabled, or container start failure), it does
not call the detection client and proceeds to the sleep step. -/
theorem standby_tick_calls (cfg : Config) (enabled : Bool) (inp : TickInput) (s : MState)
    (hsb : s.standbyMode = true)
    (hstay : inp.motion = false ∨ enabled = false ∨ inp.startOk = false) :
    (Event.getFrameCall ∈ (monitor_tick cfg enabled inp s).2 ∧
     (∀ f, inp.frameResult = some f → Event.motionEval ∈ (monitor_tick cfg enabled inp s).2) ∧
     Event.detectCall ∉ (monitor_tick cfg enabled inp s).2) := by
  cases hf : inp.frameResult with
  | none => simp [monitor_tick, hf]
  | some f =>
    have hs2 : (motionStep enabled inp.startOk inp.now inp.motion
        (frameUpdate f inp.now s)).standbyMode = true := by
      rcases hstay with h | h | h <;> cases hm : inp.motion <;> cases enabled <;>
        simp_all [motionStep, exit_standby, start_container, frameUpdate]
    simp only [monitor_tick, hf]
    cases hA : isActive cfg inp.now
        (motionStep enabled inp.startOk inp.now inp.motion (frameUpdate f inp.now s)) <;>
      simp [hA, hs2]

/-- C3, witness: the amended behaviour evaluated on a concrete standby
tick with a frame and no motion. -/
theorem standby_tick_calls_witness :
    (Event.getFrameCall ∈ (monitor_tick cfgDefault true inpIdleFrame sStandby).2 ∧
     (∀ f, inpIdleFrame.frameResult = some f →
       Event.motionEval ∈ (monitor_tick cfgDefault true inpIdleFrame sStandby).2) ∧
     Event.detectCall ∉ (monitor_tick cfgDefault true inpIdleFrame sStandby).2) :=
  standby_tick_calls cfgDefault true inpIdleFrame sStandby rfl (Or.inl rfl)

/-! ## Claim C4 — motion overrides standby -/

/-- C4, counterexample: motion during a standby tick does not guarantee
`standbyMode = false` afterwards — when the ML container start fails,
`exit_standby` returns failure and the tick ends still in standby. -/
theorem motion_standby_counterexample :
    sStandby.standbyMode = true ∧ inpMotionStartFail.motion = true ∧
    (monitor_tick cfgDefault true inpMotionStartFail sStandby).1.standbyMode = true := by
  decide

/-- C4, amended: for a tick starting with `standbyMode` true whose frame
shows motion, with the standby handler enabled and the ML container start
succeeding, the state after the tick has `standbyMode = false` (motion
exits standby); if the container start fails, standby persists. -/
theorem motion_exits_standby (cfg : Config) (inp : TickInput) (s : MState) (f : Frame)
    (hsb : s.standbyMode = true) (hm : inp.motion = true)
    (hf : inp.frameResult = some f) (hstart : inp.startOk = true) :
    (monitor_tick cfg true inp s).1.standbyMode = false := by
  have h2 : (motionStep true inp.startOk inp.now inp.motion
        (frameUpdate f inp.now s)).standbyMode = false ∧
      (motionStep true inp.startOk inp.now inp.motion
        (frameUpdate f inp.now s)).lastActivityTime = some inp.now := by
    simp [motionStep, hm, frameUpdate, hsb, exit_standby, start_container, hstart]
  simp only [monitor_tick, hf]
  split
  · exact idleBranch_standbyMode_after_activity _ _ _ _ _ h2.1 h2.2
  · split
    · next hcond => simp_all
    · rw [analyzeBranch_standbyMode]
      exact h2.1

/-- C4, witness: the amended property evaluated on a concrete standby tick
with motion and a successful container start. -/
theorem motion_exits_standby_witness :
    (monitor_tick cfgDefault true inpMotionOk sStandby).1.standbyMode = false :=
  motion_exits_standby cfgDefault inpMotionOk sStandby 5 rfl rfl rfl rfl

/-! ## Claim C5 — the mode vocabulary -/

/-- C5: every write of `current_status` stays inside the spec's six-state
set {starting, idle, monitoring/ok, failure, error, standby} — the spec
state "monitoring/ok" is written by the code as the string `'monitoring'`
or `'ok'`. The initial state starts there and every operation that writes
the shared status (a monitor tick, `enter_standby`, `exit_standby`)
preserves membership. -/
theorem mode_always_valid :
    (∀ t0 : Nat, (initialState t0).currentStatus ∈ validModes) ∧
    (∀ (cfg : Config) (enabled : Bool) (inp : TickInput) (s : MState),
      s.currentStatus ∈ validModes →
      ((monitor_tick cfg enabled inp s).1).currentStatus ∈ validModes) ∧
    (∀ (enabled ok : Bool) (s : MState),
      s.currentStatus ∈ validModes →
      ((enter_standby enabled ok s).2).currentStatus ∈ validModes) ∧
    (∀ (enabled ok : Bool) (now : Nat) (s : MState),
      s.currentStatus ∈ validModes →
      ((exit_standby enabled ok now s).2).currentStatus ∈ validModes) := by
  refine ⟨?_, ?_, enter_standby_status_mem, exit_standby_status_mem⟩
  · intro t0; simp [initialState, validModes]
  · intro cfg enabled inp s h
    cases hf : inp.frameResult with
    | none => simp [monitor_tick, hf, noFrameUpdate, validModes]
    | some f =>
      simp only [monitor_tick, hf]
      split
      · exact idleBranch_status_mem _ _ _ _ _
      · split
        · exact motionStep_status_mem _ _ _ _ _ (by simpa [frameUpdate] using h)
        · exact analyzeBranch_status_mem _ _ _ _ _

/-- C5, witness: mode preservation evaluated on a concrete no-frame tick
from the start state. -/
theorem mode_always_valid_witness :
    ((monitor_tick cfgDefault true inpNoFrame s0).1).currentStatus ∈ validModes :=
  mode_always_valid.2.1 cfgDefault true inpNoFrame s0 (by simp [s0, initialState, validModes])

/-! ## Claim C6 — detection classification -/

/-- C6: the recorded confidence is the maximum over all (well-formed)
detections — an upper bound that is 0 or attained, and 0 for the empty
set — and the cycle is classified a failure iff some single detection's
confidence reaches the threshold; concretely, with threshold 0.6 and a
single detection of confidence 0.61, the tick ends with
`mode = 'failure'`, `detection_confidence = 0.61`, and publishes a
failure event whose confidence field is 0.61. -/
theorem detection_classification :
    (∀ (thr : ℚ) (ds : List DetEntry) (l : String) (c : ℚ) (b : List ℚ),
      DetEntry.valid l c b ∈ ds → c ≤ (scanDetections thr ds).1) ∧
    (∀ (thr : ℚ) (ds : List DetEntry),
      (scanDetections thr ds).1 = 0 ∨
      ∃ l c b, DetEntry.valid l c b ∈ ds ∧ (scanDetections thr ds).1 = c) ∧
    (∀ (thr : ℚ) (ds : List DetEntry),
      ((scanDetections thr ds).2 = true ↔ ∃ l c b, DetEntry.valid l c b ∈ ds ∧ thr ≤ c)) ∧
    (∀ thr : ℚ, scanDetections thr [] = (0, false)) ∧
    (s1.currentStatus = "failure" ∧ s1.detectionConfidence = 61/100 ∧
     Event.publishFailure (61/100) [det061] ∈ (monitor_tick cfgDefault true inpDetect s0).2) := by
  refine ⟨?_, ?_, ?_, fun thr => rfl, ?_, ?_, ?_⟩
  · intro thr ds l c b h; exact scanAux_mem_le thr ds _ l c b h
  · intro thr ds; exact scanAux_fst_attained thr ds _
  · intro thr ds
    rw [scanDetections, scanAux_snd_iff]
    simp
  · norm_num [s1, monitor_tick, inpDetect, cfgDefault, s0, initialState, frameUpdate,
      motionStep, isActive, analyzeBranch, idleBranch, idleState, scanDetections,
      scanAux, det061]
  · norm_num [s1, monitor_tick, inpDetect, cfgDefault, s0, initialState, frameUpdate,
      motionStep, isActive, analyzeBranch, idleBranch, idleState, scanDetections,
      scanAux, det061]
  · norm_num [monitor_tick, inpDetect, cfgDefault, s0, initialState, frameUpdate,
      motionStep, isActive, analyzeBranch, idleBranch, idleState, scanDetections,
      scanAux, det061]

/-- C6, witness: the upper-bound part evaluated on the concrete
0.61-confidence detection list. -/
theorem detection_classification_witness :
    (61/100 : ℚ) ≤ (scanDetections (6/10) [det061]).1 :=
  detection_classification.1 (6/10) [det061] "spaghetti" (61/100) [0, 0, 1, 1]
    (by simp [det061])

/-! ## Claim C7 — standby idempotence -/

/-- C7: with the feature enabled, `enter_standby` on a state already in
standby returns success and leaves the state unchanged, `exit_standby` on
a state not in standby likewise; consequently calling either operation
twice in a row (with the same external Docker outcome) yields the same
final state as calling it once. -/
theorem standby_ops_idempotent :
    (∀ (s : MState) (ok : Bool), s.standbyMode = true →
      enter_standby true ok s = (true, s)) ∧
    (∀ (s : MState) (ok : Bool) (now : Nat), s.standbyMode = false →
      exit_standby true ok now s = (true, s)) ∧
    (∀ (s : MState) (ok : Bool),
      (enter_standby true ok (enter_standby true ok s).2).2 = (enter_standby true ok s).2) ∧
    (∀ (s : MState) (ok : Bool) (now : Nat),
      (exit_standby true ok now (exit_standby true ok now s).2).2 = (exit_standby true ok now s).2) := by
  refine ⟨?_, ?_, ?_, ?_⟩
  · intro s ok h; simp [enter_standby, h]
  · intro s ok now h; simp [exit_standby, h]
  · intro s ok
    cases ok <;> cases hs : s.standbyMode <;>
      simp [enter_standby, stop_container, hs]
  · intro s ok now
    cases ok <;> cases hs : s.standbyMode <;>
      simp [exit_standby, start_container, hs]

/-- C7, witness: entering standby from the concrete standby state is a
successful no-op. -/
theorem standby_ops_idempotent_witness :
    sStandby.standbyMode = true ∧ enter_standby true true sStandby = (true, sStandby) :=
  ⟨rfl, standby_ops_idempotent.1 sStandby true rfl⟩

/-! ## Claim C8 — standby disabled -/

/-- C8: with standby disabled at configuration time, `enter_standby` and
`exit_standby` return failure and leave the entire shared status
(including `standbyMode`) unchanged, for every state. -/
theorem standby_ops_disabled :
    (∀ (s : MState) (ok : Bool), enter_standby false ok s = (false, s)) ∧
    (∀ (s : MState) (ok : Bool) (now : Nat), exit_standby false ok now s = (false, s)) :=
  ⟨fun _ _ => rfl, fun _ _ _ => rfl⟩

/-! ## Claim C9 — single-slot frame buffer -/

/-- C9: `get_frame` delivers each captured frame at most once — whenever a
call returns a frame it atomically clears the single-slot buffer, so a
second call with no intervening capture returns none. -/
theorem get_frame_consumed_once (st : StreamState) (n1 n2 : Nat) (c1 c2 : Bool)
    (h : ((get_frame n1 c1 st).1).isSome = true) :
    (get_frame n2 c2 (get_frame n1 c1 st).2).1 = none := by
  by_cases hr : st.running = true
  · simp [get_frame, hr]
  · by_cases hw : n1 - st.lastConnectionAttempt < connectionRetryDelay
    · simp [get_frame, stream_connect, hr, hw] at h
    · cases c1
      · simp [get_frame, stream_connect, hr, hw] at h
      · simp [get_frame, stream_connect, hr, hw]

/-- C9, witness: the consumed-once contract evaluated on a concrete buffer
holding one frame. -/
theorem get_frame_consumed_once_witness :
    ((get_frame 0 true stBuf).1).isSome = true ∧
    (get_frame 1 true (get_frame 0 true stBuf).2).1 = none :=
  ⟨rfl, get_frame_consumed_once stBuf 0 1 true true rfl⟩

/-! ## Claim C10 — frame effect of a failed ML analysis -/

/-- C10: a monitor tick whose ML analysis returns none sets `mode` to
error, sets the error message, and increments `failedChecks` by one,
while `totalChecks`, `detectionConfidence`, `failureDetected`,
`lastMotionTime` and `lastActivityTime` keep the values they had before
the failed analysis (stated here for a tick whose activity comes from an
earlier motion timestamp, so all five fields are untouched for the whole
tick). -/
theorem ml_error_tick_frame (cfg : Config) (enabled : Bool) (inp : TickInput) (s : MState)
    (t : Nat) (f : Frame)
    (hsb : s.standbyMode = false) (hm : inp.motion = false)
    (hlm : s.lastMotionTime = some t) (hact : inp.now - t < cfg.idleTimeout)
    (hf : inp.frameResult = some f) (hml : inp.mlResult = none) :
    ((monitor_tick cfg enabled inp s).1.currentStatus = "error" ∧
     (monitor_tick cfg enabled inp s).1.errorMessage = some "ML API analysis failed" ∧
     (monitor_tick cfg enabled inp s).1.failedChecks = s.failedChecks + 1 ∧
     (monitor_tick cfg enabled inp s).1.totalChecks = s.totalChecks ∧
     (monitor_tick cfg enabled inp s).1.detectionConfidence = s.detectionConfidence ∧
     (monitor_tick cfg enabled inp s).1.failureDetected = s.failureDetected ∧
     (monitor_tick cfg enabled inp s).1.lastMotionTime = s.lastMotionTime ∧
     (monitor_tick cfg enabled inp s).1.lastActivityTime = s.lastActivityTime) := by
  rcases hu : inp.healthUpdate with _ | b <;>
    simp [monitor_tick, hf, hm, hml, hu, frameUpdate, motionStep, isActive, hlm, hact,
      analyzeBranch, hsb]

/-- C10, witness: the failed-analysis frame effect evaluated on a concrete
active state and failing ML input. -/
theorem ml_error_tick_frame_witness :
    ((monitor_tick cfgDefault true inpMlFail sActive).1.currentStatus = "error" ∧
     (monitor_tick cfgDefault true inpMlFail sActive).1.errorMessage
       = some "ML API analysis failed" ∧
     (monitor_tick cfgDefault true inpMlFail sActive).1.failedChecks
       = sActive.failedChecks + 1 ∧
     (monitor_tick cfgDefault true inpMlFail sActive).1.totalChecks = sActive.totalChecks ∧
     (monitor_tick cfgDefault true inpMlFail sActive).1.detectionConfidence
       = sActive.detectionConfidence ∧
     (monitor_tick cfgDefault true inpMlFail sActive).1.failureDetected
       = sActive.failureDetected ∧
     (monitor_tick cfgDefault true inpMlFail sActive).1.lastMotionTime
       = sActive.lastMotionTime ∧
     (monitor_tick cfgDefault true inpMlFail sActive).1.lastActivityTime
       = sActive.lastActivityTime) :=
  ml_error_tick_frame cfgDefault true inpMlFail sActive 5 6 rfl rfl rfl (by decide) rfl rfl

end PrintMonitor
